import Mathlib

/-!
Shallow embedding of `src/xy.rs` from the cursive repository: the generic
two-axis container `XY<T>` and its combinators, together with the
`Orientation` axis selector it dispatches on.

Mutable-reference accessors (`get_mut`, `Orientation::get_ref`) are embedded
as functional writers: writing value `w` through the returned reference is
the function producing the updated container.
-/

namespace Cursive

/-- Modelled from the spec: `Orientation` lives in `direction.rs`, which is
not part of the provided sources. The spec describes it as "an exhaustive
two-variant tag, {Horizontal, Vertical}, with no payload". -/
inductive Orientation : Type where
  | Horizontal : Orientation
  | Vertical : Orientation
deriving DecidableEq, Repr

/-- The `XY<T>` struct: one value of type `T` per axis. -/
structure XY (T : Type) where
  x : T
  y : T
deriving DecidableEq, Repr

namespace XY

/-- `XY::new`: creates a new `XY` from the given values. -/
def new {T : Type} (x y : T) : XY T :=
  { x := x, y := y }

/-- `XY::fold`: returns `f(self.x, self.y)`. -/
def fold {T U : Type} (v : XY T) (f : T → T → U) : U :=
  f v.x v.y

/-- `XY::map`: creates a new `XY` by applying `f` to `x` and `y`. -/
def map {T U : Type} (v : XY T) (f : T → U) : XY U :=
  new (f v.x) (f v.y)

/-- `XY::map_x`: creates a new `XY` by applying `f` to `x`, carrying `y` over. -/
def map_x {T : Type} (v : XY T) (f : T → T) : XY T :=
  new (f v.x) v.y

/-- `XY::map_y`: creates a new `XY` by applying `f` to `y`, carrying `x` over. -/
def map_y {T : Type} (v : XY T) (f : T → T) : XY T :=
  new v.x (f v.y)

/-- `XY::pair`: destructures self into a pair. -/
def pair {T : Type} (v : XY T) : T × T :=
  (v.x, v.y)

/-- `XY::iter`: `iter::once(&self.x).chain(iter::once(&self.y))`, embedded as
the list of elements the iterator yields, in order. -/
def iter {T : Type} (v : XY T) : List T :=
  List.cons v.x (List.cons v.y List.nil)

/-- `XY::get`: returns the value on the given axis. -/
def get {T : Type} (v : XY T) (o : Orientation) : T :=
  match o with
  | Orientation.Horizontal => v.x
  | Orientation.Vertical => v.y

/-- `XY::get_mut`, embedded as a writer: `get_mut_write v o w` is the
container obtained by assigning `w` through the mutable reference that
`get_mut(o)` returns. -/
def get_mut_write {T : Type} (v : XY T) (o : Orientation) (w : T) : XY T :=
  match o with
  | Orientation.Horizontal => { v with x := w }
  | Orientation.Vertical => { v with y := w }

/-- `XY::zip`: returns a new `XY` of tuples made by zipping `self` and `other`. -/
def zip {T U : Type} (v : XY T) (other : XY U) : XY (T × U) :=
  new (v.x, other.x) (v.y, other.y)

/-- `XY::zip_map`: returns a new `XY` by calling `f` on `self` and `other`
for each axis. -/
def zip_map {T U V : Type} (v : XY T) (other : XY U) (f : T → U → V) : XY V :=
  new (f v.x other.x) (f v.y other.y)

/-- `XY::map_if`: applies `f` on axes where `condition` is true, carrying
`self` over otherwise. Implemented via `zip_map`, as in the source. -/
def map_if {T : Type} (v : XY T) (condition : XY Bool) (f : T → T) : XY T :=
  v.zip_map condition (fun a c => if c then f a else a)

end XY

namespace Orientation

/-- Modelled from the spec: `Orientation::get_ref` (in `direction.rs`, not in
the provided sources) returns a mutable reference that "deterministically
resolve[s] to the `x` field when Horizontal and the `y` field when Vertical";
embedded as the writer through that reference. -/
def set_ref {T : Type} (o : Orientation) (v : XY T) (w : T) : XY T :=
  match o with
  | Orientation.Horizontal => { v with x := w }
  | Orientation.Vertical => { v with y := w }

/-- Modelled from the spec: `Orientation::get` (in `direction.rs`, not in the
provided sources) is the read accessor resolving to `x` when Horizontal and
`y` when Vertical. -/
def getXY {T : Type} (o : Orientation) (v : XY T) : T :=
  match o with
  | Orientation.Horizontal => v.x
  | Orientation.Vertical => v.y

end Orientation

namespace XY

/-- `XY::with_axis`: clones `self` and writes `value` through
`o.get_ref(&mut new)`. -/
def with_axis {T : Type} (v : XY T) (o : Orientation) (value : T) : XY T :=
  o.set_ref v value

/-- `XY::set_axis_from`: writes `o.get(other)` through `o.get_ref(self)`;
embedded as the function producing the updated `self`. -/
def set_axis_from {T : Type} (v : XY T) (o : Orientation) (other : XY T) : XY T :=
  o.set_ref v (o.getXY other)

/-- `XY::with_axis_from`: clones `self` then calls `set_axis_from`. -/
def with_axis_from {T : Type} (v : XY T) (o : Orientation) (other : XY T) : XY T :=
  set_axis_from v o other

/-- `XY::<Option<T>>::unwrap_or`: calls `unwrap_or` on each axis, via
`zip_map`. -/
def unwrap_or {T : Type} (v : XY (Option T)) (other : XY T) : XY T :=
  v.zip_map other Option.getD

/-- `XY::<bool>::any`: true if any of `x` or `y` is true. -/
def any (v : XY Bool) : Bool :=
  v.fold or

/-- `XY::<bool>::both`: true if both `x` and `y` are true. -/
def both (v : XY Bool) : Bool :=
  v.fold and

/-- `XY::<bool>::select`: for each axis, keeps elements from `other` if
`self` is true. -/
def select {T : Type} (v : XY Bool) (other : XY T) : XY (Option T) :=
  v.zip_map other (fun keep o => if keep then some o else none)

/-- `XY::<bool>::select_or`: for each axis, selects `if_true` if `self` is
true, else `if_false`; implemented as `select` then `unwrap_or`. -/
def select_or {T : Type} (v : XY Bool) (if_true if_false : XY T) : XY T :=
  (v.select if_true).unwrap_or if_false

/-- `XY::both_from`: creates a `XY` with both `x` and `y` set to `value`. -/
def both_from {T : Type} (value : T) : XY T :=
  new value value

/-- `impl From<(T, T)> for XY<T>`: builds `XY::new(x, y)` from `(x, y)`. -/
def from_pair {T : Type} (p : T × T) : XY T :=
  new p.1 p.2

/-- `impl From<(XY<T>, XY<U>)> for XY<(T, U)>`: `t.zip(u)`. -/
def from_xy_pair {T U : Type} (p : XY T × XY U) : XY (T × U) :=
  p.1.zip p.2

end XY

/-- C1: `get` returns the `x` field for Horizontal and the `y` field for
Vertical; `get_mut` resolves the same field mutably (writing through the
returned reference updates exactly that field); and the dispatch is
exhaustive over the two `Orientation` variants, so both accessors are total
and infallible. -/
theorem get_and_get_mut_dispatch {T : Type} (v : XY T) :
    v.get Orientation.Horizontal = v.x ∧
    v.get Orientation.Vertical = v.y ∧
    (∀ w : T, v.get_mut_write Orientation.Horizontal w = { v with x := w } ∧
      v.get_mut_write Orientation.Vertical w = { v with y := w }) ∧
    (∀ o : Orientation, o = Orientation.Horizontal ∨ o = Orientation.Vertical) := by
  refine ⟨rfl, rfl, fun w => ⟨rfl, rfl⟩, fun o => ?_⟩
  cases o
  · exact Or.inl rfl
  · exact Or.inr rfl

/-- C2: conversion between `XY<T>` and the ordered pair `(x, y)` is a
lossless round-trip: `from_pair (v.pair) = v` and `(from_pair p).pair = p`. -/
theorem pair_round_trip {T : Type} (v : XY T) (p : T × T) :
    XY.from_pair v.pair = v ∧ (XY.from_pair p).pair = p :=
  ⟨rfl, rfl⟩

/-- C3: `v.map f` equals `new (f v.x) (f v.y)`: the result has `x` field
`f v.x` and `y` field `f v.y`, each axis transformed independently. -/
theorem map_per_axis {T U : Type} (v : XY T) (f : T → U) :
    v.map f = XY.new (f v.x) (f v.y) ∧
    (v.map f).x = f v.x ∧ (v.map f).y = f v.y :=
  ⟨rfl, rfl, rfl⟩

/-- C4: `v1.zip v2` equals `new ((v1.x, v2.x)) ((v1.y, v2.y))` with no
failure path, and for every binary `f` and every axis `a`,
`(v1.zip_map v2 f).get a = f (v1.get a) (v2.get a)`. -/
theorem zip_and_zip_map {T U V : Type} (v1 : XY T) (v2 : XY U) (f : T → U → V) :
    v1.zip v2 = XY.new (v1.x, v2.x) (v1.y, v2.y) ∧
    (∀ a : Orientation, (v1.zip_map v2 f).get a = f (v1.get a) (v2.get a)) := by
  refine ⟨rfl, fun a => ?_⟩
  cases a <;> rfl

/-- C5: `select_or if_true if_false` equals `select` immediately resolved by
`unwrap_or if_false`; per axis it yields the `if_true` value when the flag is
true and the `if_false` value otherwise; and on the concrete scenario
`c = (true, false)`, `if_true = (1, 2)`, `if_false = (10, 20)` the result is
`(1, 20)`. -/
theorem select_or_spec {T : Type} (c : XY Bool) (t f : XY T) :
    c.select_or t f = (c.select t).unwrap_or f ∧
    (∀ a : Orientation,
      (c.select_or t f).get a = if c.get a then t.get a else f.get a) ∧
    (XY.new true false).select_or (XY.new (1 : ℕ) 2) (XY.new 10 20) =
      XY.new 1 20 := by
  refine ⟨rfl, fun a => ?_, by decide⟩
  rcases c with ⟨cx, cy⟩
  cases a <;> cases cx <;> cases cy <;> rfl

/-- C6: `map_if condition f` applies `f` exactly on the axes whose condition
flag is true and carries the other axis value over verbatim; on the concrete
scenario `v = (3, 4)`, `condition = (true, false)`, `f = negate` the result
is `(-3, 4)`. -/
theorem map_if_spec {T : Type} (v : XY T) (c : XY Bool) (f : T → T) :
    (∀ a : Orientation,
      (v.map_if c f).get a = if c.get a then f (v.get a) else v.get a) ∧
    (XY.new (3 : ℤ) 4).map_if (XY.new true false) (fun n => -n) =
      XY.new (-3) 4 := by
  refine ⟨fun a => ?_, by decide⟩
  rcases c with ⟨cx, cy⟩
  cases a <;> cases cx <;> cases cy <;> rfl

/-- C7: every single-axis operation leaves the other axis unchanged:
`with_axis`, `with_axis_from` and `set_axis_from` replace exactly the value
on the selected axis and keep the non-selected axis equal to its value in
`v`; `map_x` leaves `y` unchanged and `map_y` leaves `x` unchanged. -/
theorem single_axis_frame {T : Type} (v other : XY T) (w : T) (f : T → T) :
    (v.with_axis Orientation.Horizontal w).y = v.y ∧
    (v.with_axis Orientation.Horizontal w).x = w ∧
    (v.with_axis Orientation.Vertical w).x = v.x ∧
    (v.with_axis Orientation.Vertical w).y = w ∧
    (v.with_axis_from Orientation.Horizontal other).y = v.y ∧
    (v.with_axis_from Orientation.Horizontal other).x = other.x ∧
    (v.with_axis_from Orientation.Vertical other).x = v.x ∧
    (v.with_axis_from Orientation.Vertical other).y = other.y ∧
    (v.set_axis_from Orientation.Horizontal other).y = v.y ∧
    (v.set_axis_from Orientation.Horizontal other).x = other.x ∧
    (v.set_axis_from Orientation.Vertical other).x = v.x ∧
    (v.set_axis_from Orientation.Vertical other).y = other.y ∧
    (v.map_x f).y = v.y ∧
    (v.map_y f).x = v.x :=
  ⟨rfl, rfl, rfl, rfl, rfl, rfl, rfl, rfl, rfl, rfl, rfl, rfl, rfl, rfl⟩

/-- C8: `unwrap_or defaults` resolves each axis independently: when the axis
holds `some t` the result on that axis is `t`, and when it holds `none` the
result is the corresponding axis of `defaults`; on the concrete scenario
`v = (some 1, none)`, `defaults = (0, 0)` the result is `(1, 0)`. -/
theorem unwrap_or_per_axis {T : Type} (v : XY (Option T)) (d : XY T) :
    (∀ a : Orientation, ∀ t : T, v.get a = some t → (v.unwrap_or d).get a = t) ∧
    (∀ a : Orientation, v.get a = none → (v.unwrap_or d).get a = d.get a) ∧
    (XY.new (some (1 : ℕ)) none).unwrap_or (XY.new 0 0) = XY.new 1 0 := by
  refine ⟨fun a t h => ?_, fun a h => ?_, by decide⟩
  · cases a <;> simp only [XY.get] at h <;>
      simp [XY.unwrap_or, XY.zip_map, XY.new, XY.get, h]
  · cases a <;> simp only [XY.get] at h <;>
      simp [XY.unwrap_or, XY.zip_map, XY.new, XY.get, h]

/-- Witness for C8: the per-axis clauses applied at the concrete input
`v = (some 1, none)`, `defaults = (0, 0)`, with both hypotheses discharged
by evaluation. -/
theorem unwrap_or_per_axis_witness :
    ((XY.new (some (1 : ℕ)) none).unwrap_or (XY.new 0 0)).get
        Orientation.Horizontal = 1 ∧
    ((XY.new (some (1 : ℕ)) none).unwrap_or (XY.new 0 0)).get
        Orientation.Vertical = (XY.new (0 : ℕ) 0).get Orientation.Vertical :=
  ⟨(unwrap_or_per_axis (XY.new (some 1) none) (XY.new 0 0)).1
      Orientation.Horizontal 1 rfl,
   (unwrap_or_per_axis (XY.new (some 1) none) (XY.new 0 0)).2.1
      Orientation.Vertical rfl⟩

/-- C9: `iter` yields exactly the two elements `x` then `y`, in that fixed
order; the sequence has length 2, so it is finite and never empty, and being
a pure function of `v` it is restartable. -/
theorem iter_two_elements {T : Type} (v : XY T) :
    v.iter = List.cons v.x (List.cons v.y List.nil) ∧
    v.iter.length = 2 ∧
    v.iter ≠ List.nil :=
  ⟨rfl, rfl, by simp [XY.iter]⟩

/-- C10: the conversion from a pair of containers to a container of pairs
coincides with `zip`: `from_xy_pair (t, u) = t.zip u`, which is
`new ((t.x, u.x)) ((t.y, u.y))`. -/
theorem from_tuple_of_xy_eq_zip {T U : Type} (t : XY T) (u : XY U) :
    XY.from_xy_pair (t, u) = t.zip u ∧
    XY.from_xy_pair (t, u) = XY.new (t.x, u.x) (t.y, u.y) :=
  ⟨rfl, rfl⟩

end Cursive
